import Mathlib

/-!
Shallow embedding of the `notes_editor` rendering scaffold.

Numeric model: the Rust source computes geometry in `f32`; here the same
formulas are carried out exactly over `ℚ`.  Every arithmetic expression is
transcribed literally from the source (`src/widgets/square.rs`,
`src/app.rs`); the concrete scenario inputs of the spec are exactly
representable, so the rational results coincide with the float ones there.

GPU handles (buffers, compiled pipelines, shader modules) are modelled by
their observable data: a buffer by the list it was initialised with, a
compiled render pipeline by the `PrimitiveState` it was configured with.
-/

/-- Mirror of `vertex.rs` `Vertex`: position (3 floats) and RGBA color
(4 floats). -/
structure Vertex where
  position : ℚ × ℚ × ℚ
  color : ℚ × ℚ × ℚ × ℚ
deriving DecidableEq, Inhabited

/-- Mirror of `square.rs` `SquareWidgetDesc`. -/
structure SquareWidgetDesc where
  width : ℚ
  height : ℚ
  x : ℚ
  y : ℚ
  color : ℚ × ℚ × ℚ × ℚ
deriving DecidableEq, Inhabited

/-- Mirror of `square.rs` `SquareWidget`: the four vertices and six indices
computed at construction time, plus the stored description. -/
structure SquareWidget where
  verticies : List Vertex
  indicies : List ℕ
  description : SquareWidgetDesc
deriving DecidableEq, Inhabited

/-- Mirror of `SquareWidget::new` (`square.rs` lines 40–71): clip-space
mapping of the 0–100 description and the fixed index list. -/
def SquareWidget.new (desc : SquareWidgetDesc) : SquareWidget :=
  let x := (desc.x / 100) * 2 - 1
  let y := (desc.y / 100) * -2 + 1
  let width := desc.width * 2 / 100
  let height := desc.height * 2 / 100
  { verticies := [
      { position := (x, y, 0), color := desc.color },
      { position := (x + width, y, 0), color := desc.color },
      { position := (x, y - height, 0), color := desc.color },
      { position := (x + width, y - height, 0), color := desc.color } ],
    indicies := [0, 2, 1, 2, 3, 1],
    description := desc }

/-- Mirror of `Widget::get_vertices` for `SquareWidget`. -/
def SquareWidget.get_vertices (w : SquareWidget) : List Vertex :=
  w.verticies

/-- Mirror of `Widget::get_indices` for `SquareWidget`. -/
def SquareWidget.get_indices (w : SquareWidget) : List ℕ :=
  w.indicies

/-- C1: `SquareWidget::new` produces exactly 4 vertices at the spec's
clip-space corners — top-left `((x/100)*2-1, (y/100)*-2+1)`, top-right
`(clip_x + width*2/100, clip_y)`, bottom-left `(clip_x, clip_y - height*2/100)`,
bottom-right `(clip_x + width*2/100, clip_y - height*2/100)` — for every
description, with no validation of negative or out-of-range inputs
(the statement is universally quantified, hypotheses-free). -/
theorem square_new_geometry (desc : SquareWidgetDesc) :
    (SquareWidget.new desc).verticies =
      [ { position := ((desc.x / 100) * 2 - 1, (desc.y / 100) * -2 + 1, 0),
          color := desc.color },
        { position := ((desc.x / 100) * 2 - 1 + desc.width * 2 / 100,
                       (desc.y / 100) * -2 + 1, 0),
          color := desc.color },
        { position := ((desc.x / 100) * 2 - 1,
                       (desc.y / 100) * -2 + 1 - desc.height * 2 / 100, 0),
          color := desc.color },
        { position := ((desc.x / 100) * 2 - 1 + desc.width * 2 / 100,
                       (desc.y / 100) * -2 + 1 - desc.height * 2 / 100, 0),
          color := desc.color } ] ∧
    (SquareWidget.new desc).verticies.length = 4 := by
  exact ⟨rfl, rfl⟩

/-- C8: the two concrete scenarios of the spec. `{width:100, height:100,
x:0, y:0, color:[1,1,1,1.2]}` yields the full-viewport quad
`(-1,1), (1,1), (-1,-1), (1,-1)`, and `{width:100, height:20, x:0, y:0,
color:[1,0,0,1]}` yields `(-1,1), (1,1), (-1,0.6), (1,0.6)`. -/
theorem square_concrete_scenarios :
    ((SquareWidget.new
        { width := 100, height := 100, x := 0, y := 0,
          color := (1, 1, 1, 1.2) }).verticies.map Vertex.position =
      [(-1, 1, 0), (1, 1, 0), (-1, -1, 0), (1, -1, 0)]) ∧
    ((SquareWidget.new
        { width := 100, height := 20, x := 0, y := 0,
          color := (1, 0, 0, 1) }).verticies.map Vertex.position =
      [(-1, 1, 0), (1, 1, 0), (-1, 0.6, 0), (1, 0.6, 0)]) := by
  constructor <;> norm_num [SquareWidget.new]

/-- Mirror of `Widget::set_color` for `SquareWidget`: only the stored
description is written. -/
def SquareWidget.set_color (w : SquareWidget) (color : ℚ × ℚ × ℚ × ℚ) :
    SquareWidget :=
  { w with description := { w.description with color := color } }

/-- Mirror of `Widget::set_x` for `SquareWidget`. -/
def SquareWidget.set_x (w : SquareWidget) (x : ℚ) : SquareWidget :=
  { w with description := { w.description with x := x } }

/-- Mirror of `Widget::set_y` for `SquareWidget`. -/
def SquareWidget.set_y (w : SquareWidget) (y : ℚ) : SquareWidget :=
  { w with description := { w.description with y := y } }

/-- Mirror of `Widget::set_width` for `SquareWidget`. -/
def SquareWidget.set_width (w : SquareWidget) (width : ℚ) : SquareWidget :=
  { w with description := { w.description with width := width } }

/-- Mirror of `Widget::set_height` for `SquareWidget`. -/
def SquareWidget.set_height (w : SquareWidget) (height : ℚ) : SquareWidget :=
  { w with description := { w.description with height := height } }

/-- One call to one of the five `Widget` setters. -/
inductive WidgetOp where
  | setColor (c : ℚ × ℚ × ℚ × ℚ)
  | setX (x : ℚ)
  | setY (y : ℚ)
  | setWidth (v : ℚ)
  | setHeight (v : ℚ)
deriving DecidableEq

/-- Dispatch of one setter call. -/
def applyOp (w : SquareWidget) : WidgetOp → SquareWidget
  | WidgetOp.setColor c => w.set_color c
  | WidgetOp.setX x => w.set_x x
  | WidgetOp.setY y => w.set_y y
  | WidgetOp.setWidth v => w.set_width v
  | WidgetOp.setHeight v => w.set_height v

/-- A sequence of setter calls, applied left to right. -/
def applyOps (w : SquareWidget) (ops : List WidgetOp) : SquareWidget :=
  ops.foldl applyOp w

lemma applyOp_preserves_geometry (w : SquareWidget) (op : WidgetOp) :
    (applyOp w op).verticies = w.verticies ∧
    (applyOp w op).indicies = w.indicies := by
  cases op <;> exact ⟨rfl, rfl⟩

lemma applyOps_preserves_geometry (ops : List WidgetOp) :
    ∀ w : SquareWidget,
      (applyOps w ops).verticies = w.verticies ∧
      (applyOps w ops).indicies = w.indicies := by
  induction ops with
  | nil => exact fun w => ⟨rfl, rfl⟩
  | cons op rest ih =>
    intro w
    have h := ih (applyOp w op)
    have hv := applyOp_preserves_geometry w op
    simpa [applyOps, List.foldl_cons, hv.1, hv.2] using h

/-- C10: after any sequence of setter calls on a widget built by
`SquareWidget::new`, `get_vertices` and `get_indices` still return the
geometry computed from the construction-time description; only the stored
description differs (e.g. `set_x` really rewrites `description.x`). -/
theorem setters_never_reflected_in_geometry (desc : SquareWidgetDesc)
    (ops : List WidgetOp) :
    (applyOps (SquareWidget.new desc) ops).get_vertices =
      (SquareWidget.new desc).get_vertices ∧
    (applyOps (SquareWidget.new desc) ops).get_indices = [0, 2, 1, 2, 3, 1] ∧
    (∀ (w : SquareWidget) (q : ℚ), (w.set_x q).description.x = q) ∧
    (∀ (w : SquareWidget) (q : ℚ), (w.set_y q).description.y = q) ∧
    (∀ (w : SquareWidget) (q : ℚ), (w.set_width q).description.width = q) ∧
    (∀ (w : SquareWidget) (q : ℚ), (w.set_height q).description.height = q) ∧
    (∀ (w : SquareWidget) (c : ℚ × ℚ × ℚ × ℚ),
      (w.set_color c).description.color = c) := by
  have h := applyOps_preserves_geometry ops (SquareWidget.new desc)
  refine ⟨h.1, ?_,
    fun w q => rfl, fun w q => rfl, fun w q => rfl, fun w q => rfl,
    fun w c => rfl⟩
  show (applyOps (SquareWidget.new desc) ops).indicies = [0, 2, 1, 2, 3, 1]
  rw [h.2]
  rfl

/-- Mirror of `wgpu::PrimitiveTopology` (the variants relevant here). -/
inductive PrimitiveTopology where
  | PointList
  | LineList
  | LineStrip
  | TriangleList
  | TriangleStrip
deriving DecidableEq

/-- Mirror of `wgpu::FrontFace`. -/
inductive FrontFace where
  | Ccw
  | Cw
deriving DecidableEq

/-- Mirror of `wgpu::Face`. -/
inductive Face where
  | Front
  | Back
deriving DecidableEq

/-- Mirror of `wgpu::IndexFormat`. -/
inductive IndexFormat where
  | Uint16
  | Uint32
deriving DecidableEq

/-- Mirror of `wgpu::PrimitiveState` (the fields set in
`SquareWidget::get_pipeline`). -/
structure PrimitiveState where
  topology : PrimitiveTopology
  strip_index_format : Option IndexFormat
  front_face : FrontFace
  cull_mode : Option Face
deriving DecidableEq

/-- Mirror of the `PrimitiveState` literal inside `SquareWidget::get_pipeline`
(`square.rs` lines 143–151); this is the primitive configuration of every
pipeline the widget compiles. -/
def SquareWidget.get_pipeline_primitive : PrimitiveState :=
  { topology := PrimitiveTopology.TriangleStrip,
    strip_index_format := some IndexFormat.Uint16,
    front_face := FrontFace.Ccw,
    cull_mode := some Face.Back }

/-- Consecutive non-overlapping triples of an index list, i.e. the triangles
it describes under a triangle-list topology. -/
def asTriangleList : List ℕ → List (ℕ × ℕ × ℕ)
  | a :: b :: c :: rest => (a, b, c) :: asTriangleList rest
  | _ => []

/-- Sliding triples of an index list, i.e. the triangles it describes under a
triangle-strip topology. -/
def asTriangleStrip : List ℕ → List (ℕ × ℕ × ℕ)
  | a :: b :: c :: rest => (a, b, c) :: asTriangleStrip (b :: c :: rest)
  | _ => []

/-- Clip-space x/y of a vertex. -/
def Vertex.xy (v : Vertex) : ℚ × ℚ :=
  (v.position.1, v.position.2.1)

/-- Twice the signed area of the triangle `p q r`; positive iff the vertices
wind counter-clockwise in clip space (y up). -/
def doubledSignedArea (p q r : ℚ × ℚ) : ℚ :=
  (q.1 - p.1) * (r.2 - p.2) - (q.2 - p.2) * (r.1 - p.1)

/-- Twice the signed area of one index triangle over a vertex list. -/
def triangleDoubledArea (vs : List Vertex) (t : ℕ × ℕ × ℕ) : ℚ :=
  doubledSignedArea (vs.getD t.1 default).xy (vs.getD t.2.1 default).xy
    (vs.getD t.2.2 default).xy

/-- C5 (amended): read as a triangle list, the fixed index sequence
`[0,2,1,2,3,1]` describes exactly the two triangles `(0,2,1)` and `(2,3,1)`,
which together cover all 4 vertices; for positive width and height both wind
counter-clockwise in clip space, consistent with back-face culling under the
pipeline's configured counter-clockwise front face; the pipeline's configured
topology is `TriangleStrip`, not a triangle list. -/
theorem square_indices_two_ccw_triangles (desc : SquareWidgetDesc)
    (hw : 0 < desc.width) (hh : 0 < desc.height) :
    asTriangleList (SquareWidget.new desc).get_indices =
      [(0, 2, 1), (2, 3, 1)] ∧
    (∀ v : ℕ, v < 4 → ∃ t ∈ asTriangleList (SquareWidget.new desc).get_indices,
      v = t.1 ∨ v = t.2.1 ∨ v = t.2.2) ∧
    (∀ t ∈ asTriangleList (SquareWidget.new desc).get_indices,
      0 < triangleDoubledArea (SquareWidget.new desc).verticies t) ∧
    SquareWidget.get_pipeline_primitive.front_face = FrontFace.Ccw ∧
    SquareWidget.get_pipeline_primitive.cull_mode = some Face.Back ∧
    SquareWidget.get_pipeline_primitive.topology =
      PrimitiveTopology.TriangleStrip := by
  refine ⟨rfl, ?_, ?_, rfl, rfl, rfl⟩
  · intro v hv
    interval_cases v
    · exact ⟨(0, 2, 1), by simp [SquareWidget.new, SquareWidget.get_indices,
        asTriangleList]⟩
    · exact ⟨(0, 2, 1), by simp [SquareWidget.new, SquareWidget.get_indices,
        asTriangleList]⟩
    · exact ⟨(0, 2, 1), by simp [SquareWidget.new, SquareWidget.get_indices,
        asTriangleList]⟩
    · exact ⟨(2, 3, 1), by simp [SquareWidget.new, SquareWidget.get_indices,
        asTriangleList]⟩
  · intro t ht
    have harea : triangleDoubledArea (SquareWidget.new desc).verticies (0, 2, 1)
        = desc.height * 2 / 100 * (desc.width * 2 / 100) ∧
        triangleDoubledArea (SquareWidget.new desc).verticies (2, 3, 1)
        = desc.width * 2 / 100 * (desc.height * 2 / 100) := by
      constructor <;>
        · simp only [SquareWidget.new, triangleDoubledArea, doubledSignedArea,
            Vertex.xy, List.getD_cons_zero, List.getD_cons_succ]
          ring
    have hpos : 0 < desc.width * 2 / 100 * (desc.height * 2 / 100) := by
      positivity
    simp only [SquareWidget.new, SquareWidget.get_indices, asTriangleList,
      List.mem_cons, List.not_mem_nil, or_false] at ht
    rcases ht with h | h
    · rw [h, harea.1]; linarith
    · rw [h, harea.2]; linarith

/-- Witness for `square_indices_two_ccw_triangles` at the spec's first
concrete description. -/
theorem square_indices_two_ccw_triangles_witness :
    (0 : ℚ) < 100 ∧
    (asTriangleList (SquareWidget.new
        { width := 100, height := 100, x := 0, y := 0,
          color := (1, 1, 1, 1.2) }).get_indices = [(0, 2, 1), (2, 3, 1)] ∧
      (∀ v : ℕ, v < 4 → ∃ t ∈ asTriangleList (SquareWidget.new
          { width := 100, height := 100, x := 0, y := 0,
            color := (1, 1, 1, 1.2) }).get_indices,
        v = t.1 ∨ v = t.2.1 ∨ v = t.2.2) ∧
      (∀ t ∈ asTriangleList (SquareWidget.new
          { width := 100, height := 100, x := 0, y := 0,
            color := (1, 1, 1, 1.2) }).get_indices,
        0 < triangleDoubledArea (SquareWidget.new
          { width := 100, height := 100, x := 0, y := 0,
            color := (1, 1, 1, 1.2) }).verticies t) ∧
      SquareWidget.get_pipeline_primitive.front_face = FrontFace.Ccw ∧
      SquareWidget.get_pipeline_primitive.cull_mode = some Face.Back ∧
      SquareWidget.get_pipeline_primitive.topology =
        PrimitiveTopology.TriangleStrip) :=
  ⟨by norm_num,
    square_indices_two_ccw_triangles
      { width := 100, height := 100, x := 0, y := 0, color := (1, 1, 1, 1.2) }
      (by norm_num) (by norm_num)⟩

/-- C5 (counterexample): the claim as stated is false for the concrete
pipeline the widget configures — its front face is `Ccw`, not a clockwise
front convention, its topology is `TriangleStrip`, not a triangle list, and
under that configured strip topology the 6 indices form 4 sliding triangles,
not exactly two. -/
theorem square_pipeline_not_cw_front :
    SquareWidget.get_pipeline_primitive.front_face ≠ FrontFace.Cw ∧
    SquareWidget.get_pipeline_primitive.topology ≠
      PrimitiveTopology.TriangleList ∧
    (asTriangleStrip (SquareWidget.new
        { width := 100, height := 100, x := 0, y := 0,
          color := (1, 1, 1, 1.2) }).get_indices).length = 4 := by
  refine ⟨by decide, by decide, rfl⟩

/-- Mirror of `wgpu::TextureFormat` (a representative set of surface formats,
with their sRGB flag). -/
inductive TextureFormat where
  | Bgra8Unorm
  | Bgra8UnormSrgb
  | Rgba8Unorm
  | Rgba8UnormSrgb
  | Rgb10a2Unorm
deriving DecidableEq, Inhabited

/-- Mirror of `TextureFormat::is_srgb`. -/
def TextureFormat.is_srgb : TextureFormat → Bool
  | TextureFormat.Bgra8UnormSrgb => true
  | TextureFormat.Rgba8UnormSrgb => true
  | _ => false

/-- Mirror of `wgpu::PresentMode` (the variants relevant here). -/
inductive PresentMode where
  | Fifo
  | FifoRelaxed
  | Immediate
  | Mailbox
deriving DecidableEq, Inhabited

/-- Mirror of `wgpu::CompositeAlphaMode`. -/
inductive AlphaMode where
  | Auto
  | Opaque
  | PreMultiplied
  | PostMultiplied
  | Inherit
deriving DecidableEq, Inhabited

/-- Mirror of `wgpu::TextureUsages` (only `RENDER_ATTACHMENT` is used). -/
inductive TextureUsage where
  | RenderAttachment
deriving DecidableEq, Inhabited

/-- Mirror of `winit::dpi::PhysicalSize<u32>`. -/
structure PhysicalSize where
  width : ℕ
  height : ℕ
deriving DecidableEq, Inhabited

/-- Mirror of `wgpu::SurfaceConfiguration` (the fields set in
`AppRender::init_config`). -/
structure SurfaceConfiguration where
  usage : TextureUsage
  format : TextureFormat
  width : ℕ
  height : ℕ
  present_mode : PresentMode
  alpha_mode : AlphaMode
  view_formats : List TextureFormat
deriving DecidableEq, Inhabited

/-- Mirror of `wgpu::SurfaceCapabilities` (the fields read by
`AppRender::init_config`). -/
structure SurfaceCapabilities where
  formats : List TextureFormat
  present_modes : List PresentMode
  alpha_modes : List AlphaMode
deriving DecidableEq

/-- Mirror of `wgpu::SurfaceError`. -/
inductive SurfaceError where
  | Timeout
  | Outdated
  | Lost
  | OutOfMemory
deriving DecidableEq

/-- Mirror of `winit::event_loop::ControlFlow` (the variants the loop uses;
`Exit` is `ExitWithCode 0`). -/
inductive ControlFlow where
  | Poll
  | Wait
  | ExitWithCode (code : ℤ)
deriving DecidableEq

/-- Mirror of `app.rs` `WidgetObject`: GPU buffers are modelled by their
initial contents, the compiled pipeline by its `PrimitiveState`. -/
structure WidgetObject where
  vertex_buffer : List Vertex
  index_buffer : List ℕ
  vertex_len : ℕ
  index_len : ℕ
  render_pipeline : PrimitiveState
deriving DecidableEq

/-- Mirror of the `dyn WidgetRender` capability used by
`App::register_object`: the vertex and index slices it exposes and the
primitive configuration of the pipeline its `get_pipeline` compiles. -/
structure WidgetRender where
  get_vertices : List Vertex
  get_indices : List ℕ
  get_pipeline : PrimitiveState
deriving DecidableEq

/-- Mirror of `app.rs` `AppRender`: stored window size, surface
configuration, retained widget list, plus the history of
`surface.configure` calls (most recent last) so that reconfiguration is
observable. -/
structure AppRender where
  size : PhysicalSize
  config : SurfaceConfiguration
  widgets : List WidgetObject
  configures : List SurfaceConfiguration
deriving DecidableEq

/-- Mirror of `AppRender::init_config` (`app.rs` lines 81–100).  In the
source, `formats[0]`, `present_modes[0]` and `alpha_modes[0]` panic when the
capability list is empty (Rust evaluates `unwrap_or`'s argument eagerly);
that partiality is rendered as `none`. -/
def AppRender.init_config (surface_capabilities : SurfaceCapabilities)
    (size : PhysicalSize) : Option SurfaceConfiguration :=
  match surface_capabilities.formats, surface_capabilities.present_modes,
      surface_capabilities.alpha_modes with
  | f0 :: _, p0 :: _, a0 :: _ =>
    some { usage := TextureUsage.RenderAttachment,
           format :=
             (surface_capabilities.formats.find? TextureFormat.is_srgb).getD f0,
           width := size.width,
           height := size.height,
           present_mode := p0,
           alpha_mode := a0,
           view_formats := [] }
  | _, _, _ => none

/-- Mirror of `AppRender::new` (`app.rs` lines 27–52): builds the initial
state from the capabilities and window size and performs the initial
`surface.configure`. -/
def AppRender.new (surface_capabilities : SurfaceCapabilities)
    (size : PhysicalSize) : Option AppRender :=
  (AppRender.init_config surface_capabilities size).map fun config =>
    { size := size, config := config, widgets := [], configures := [config] }

/-- Mirror of `AppRender::resize` (`app.rs` lines 141–146): overwrite the
stored size and the configuration's dimensions, then reconfigure the
surface. -/
def AppRender.resize (r : AppRender) (new_size : PhysicalSize) : AppRender :=
  let config := { r.config with height := new_size.height,
                                width := new_size.width }
  { r with size := new_size, config := config,
           configures := r.configures ++ [config] }

/-- Mirror of `AppRender::update` (`app.rs` lines 147–149): `Ok(())` for
every state.  The `anyhow` error payload is modelled by `Unit`. -/
def AppRender.update (r : AppRender) : AppRender × Except Unit Unit :=
  (r, Except.ok ())

/-- Mirror of `App::register_object` (`app.rs` lines 211–233): build the
`WidgetObject` of one widget (buffers initialised from its slices, lengths
recorded, pipeline compiled) and push it onto the renderer's list. -/
def App.register_object (renderer : AppRender) (object : WidgetRender) :
    AppRender :=
  { renderer with widgets := renderer.widgets ++
      [{ vertex_buffer := object.get_vertices,
         index_buffer := object.get_indices,
         vertex_len := object.get_vertices.length,
         index_len := object.get_indices.length,
         render_pipeline := object.get_pipeline }] }

/-- Mirror of the registration loop in `App::run` (`app.rs` lines 177–179):
`register_object` once per widget, in order. -/
def App.registerAll (renderer : AppRender) (widgets : List WidgetRender) :
    AppRender :=
  widgets.foldl App.register_object renderer

/-- Mirror of the `RedrawRequested` arm of `App::run` (`app.rs` lines
196–204).  The outcome of `renderer.render()` — success or a
`SurfaceError` from surface acquisition — is an input supplied by the
environment.  Result: the renderer, the control flow, and the errors passed
to `eprintln`; `none` models the `expect` panic on a failed update. -/
def App.redrawRequested (renderer : AppRender) (control_flow : ControlFlow)
    (render_result : Except SurfaceError Unit) :
    Option (AppRender × ControlFlow × List SurfaceError) :=
  match renderer.update with
  | (_, Except.error _) => none
  | (r, Except.ok _) =>
    match render_result with
    | Except.ok _ => some (r, control_flow, [])
    | Except.error SurfaceError.Lost => some (r.resize r.size, control_flow, [])
    | Except.error SurfaceError.OutOfMemory =>
        some (r, ControlFlow.ExitWithCode (-1), [])
    | Except.error x => some (r, control_flow, [x])

lemma registerAll_widgets (widgets : List WidgetRender) :
    ∀ renderer : AppRender,
      (App.registerAll renderer widgets).widgets =
        renderer.widgets ++ widgets.map fun object =>
          ({ vertex_buffer := object.get_vertices,
             index_buffer := object.get_indices,
             vertex_len := object.get_vertices.length,
             index_len := object.get_indices.length,
             render_pipeline := object.get_pipeline } : WidgetObject) := by
  induction widgets with
  | nil => intro renderer; simp [App.registerAll]
  | cons object rest ih =>
    intro renderer
    have h := ih (App.register_object renderer object)
    simp only [App.registerAll, List.foldl_cons] at h ⊢
    rw [h]
    simp [App.register_object]

/-- C2: registering a sequence of N widgets retains exactly N drawable
objects, in registration order, each recording an `index_len` equal to the
length of that widget's source index array; no deduplication happens —
registering the same geometry twice appends two independent entries. -/
theorem register_objects_retained (renderer : AppRender)
    (widgets : List WidgetRender) :
    ((App.registerAll renderer widgets).widgets =
      renderer.widgets ++ widgets.map fun object =>
        ({ vertex_buffer := object.get_vertices,
           index_buffer := object.get_indices,
           vertex_len := object.get_vertices.length,
           index_len := object.get_indices.length,
           render_pipeline := object.get_pipeline } : WidgetObject)) ∧
    (App.registerAll renderer widgets).widgets.length =
      renderer.widgets.length + widgets.length ∧
    (∀ object : WidgetRender,
      (App.registerAll renderer [object, object]).widgets.length =
        renderer.widgets.length + 2) := by
  refine ⟨registerAll_widgets widgets renderer, ?_, ?_⟩
  · rw [registerAll_widgets widgets renderer]
    simp
  · intro object
    rw [registerAll_widgets [object, object] renderer]
    simp

/-- C3: classification of a failed render in the `RedrawRequested` handler —
a lost surface triggers `resize` with the last known size and the loop keeps
its control flow; out-of-memory switches the control flow to
`ExitWithCode (-1)`, a non-zero code distinct from the normal exit code 0;
any other surface error (timeout, outdated) is logged and the loop
continues with renderer state and control flow untouched. -/
theorem redraw_error_classification (renderer : AppRender)
    (control_flow : ControlFlow) :
    App.redrawRequested renderer control_flow
        (Except.error SurfaceError.Lost) =
      some (renderer.resize renderer.size, control_flow, []) ∧
    App.redrawRequested renderer control_flow
        (Except.error SurfaceError.OutOfMemory) =
      some (renderer, ControlFlow.ExitWithCode (-1), []) ∧
    ControlFlow.ExitWithCode (-1) ≠ ControlFlow.ExitWithCode 0 ∧
    App.redrawRequested renderer control_flow
        (Except.error SurfaceError.Timeout) =
      some (renderer, control_flow, [SurfaceError.Timeout]) ∧
    App.redrawRequested renderer control_flow
        (Except.error SurfaceError.Outdated) =
      some (renderer, control_flow, [SurfaceError.Outdated]) := by
  exact ⟨rfl, rfl, by decide, rfl, rfl⟩

/-- C4 (amended): an outdated surface-acquire failure is not recovered like
a lost surface — it is only logged (passed to `eprintln`) and the loop
continues to the next frame with the renderer untouched, so no surface
reconfiguration happens; only `Lost` takes the resize-with-current-size
path. -/
theorem outdated_logged_not_reconfigured (renderer : AppRender)
    (control_flow : ControlFlow) :
    App.redrawRequested renderer control_flow
        (Except.error SurfaceError.Outdated) =
      some (renderer, control_flow, [SurfaceError.Outdated]) ∧
    App.redrawRequested renderer control_flow
        (Except.error SurfaceError.Lost) =
      some (renderer.resize renderer.size, control_flow, []) := by
  exact ⟨rfl, rfl⟩

/-- Concrete renderer state used as counterexample input: the 600×300
window of `App::run` with an sRGB surface configuration and no configure
recorded yet. -/
def sampleRender : AppRender :=
  { size := { width := 600, height := 300 },
    config := { usage := TextureUsage.RenderAttachment,
                format := TextureFormat.Bgra8UnormSrgb,
                width := 600, height := 300,
                present_mode := PresentMode.Fifo,
                alpha_mode := AlphaMode.Opaque,
                view_formats := [] },
    widgets := [],
    configures := [] }

/-- C4 (counterexample): at the concrete state `sampleRender`, an outdated
surface error leaves the renderer exactly as it was — in particular its
`surface.configure` history stays empty, so the surface is not reconfigured
— while a lost surface at the same state does reconfigure; the outdated
path is therefore not the lost-recovery path the claim describes. -/
theorem outdated_counterexample :
    App.redrawRequested sampleRender ControlFlow.Poll
        (Except.error SurfaceError.Outdated) =
      some (sampleRender, ControlFlow.Poll, [SurfaceError.Outdated]) ∧
    sampleRender.configures = [] ∧
    (sampleRender.resize sampleRender.size).configures ≠ [] ∧
    App.redrawRequested sampleRender ControlFlow.Poll
        (Except.error SurfaceError.Lost) ≠
      App.redrawRequested sampleRender ControlFlow.Poll
        (Except.error SurfaceError.Outdated) := by
  exact ⟨rfl, rfl, by decide, by decide⟩

/-- C6: `resize` overwrites the stored size and the configuration's width
and height and reconfigures the surface with exactly that updated
configuration, while format, usage, present mode, alpha mode and view
formats are left unchanged — so the surface format never changes after
initialization. -/
theorem resize_only_dimensions (r : AppRender) (new_size : PhysicalSize) :
    (r.resize new_size).size = new_size ∧
    (r.resize new_size).config.width = new_size.width ∧
    (r.resize new_size).config.height = new_size.height ∧
    (r.resize new_size).config.format = r.config.format ∧
    (r.resize new_size).config.usage = r.config.usage ∧
    (r.resize new_size).config.present_mode = r.config.present_mode ∧
    (r.resize new_size).config.alpha_mode = r.config.alpha_mode ∧
    (r.resize new_size).config.view_formats = r.config.view_formats ∧
    (r.resize new_size).configures =
      r.configures ++ [(r.resize new_size).config] ∧
    (r.resize new_size).widgets = r.widgets := by
  exact ⟨rfl, rfl, rfl, rfl, rfl, rfl, rfl, rfl, rfl, rfl⟩

/-- C9: `update` is a no-op returning `Ok(())` for every renderer state, so
the `expect` panic in the `RedrawRequested` handler is unreachable: the
handler produces a result (`isSome`) for every state, control flow and
render outcome. -/
theorem update_always_succeeds (r : AppRender) :
    r.update = (r, Except.ok ()) ∧
    (∀ (control_flow : ControlFlow)
        (render_result : Except SurfaceError Unit),
      (App.redrawRequested r control_flow render_result).isSome = true) := by
  refine ⟨rfl, fun control_flow render_result => ?_⟩
  rcases render_result with e | u
  · cases e <;> rfl
  · rfl

lemma find?_first_characterization {α : Type} (p : α → Bool) :
    ∀ (l : List α) (a : α), l.find? p = some a →
      ∃ pre post, l = pre ++ a :: post ∧ p a = true ∧
        ∀ b ∈ pre, p b = false := by
  intro l
  induction l with
  | nil => intro a h; simp [List.find?] at h
  | cons x xs ih =>
    intro a h
    by_cases hx : p x = true
    · rw [List.find?_cons_of_pos _ hx] at h
      cases h
      exact ⟨[], xs, rfl, hx, by simp⟩
    · rw [List.find?_cons_of_neg _ (by simpa using hx)] at h
      obtain ⟨pre, post, hl, hpa, hpre⟩ := ih a h
      refine ⟨x :: pre, post, by rw [hl]; rfl, hpa, ?_⟩
      intro b hb
      rcases List.mem_cons.mp hb with rfl | hb
      · simpa using hx
      · exact hpre b hb

/-- C7: for nonempty capability lists, `init_config` succeeds and selects
the first offered sRGB-capable format when one exists (there are earlier
offered formats only if none of them is sRGB); when no offered format is
sRGB it falls back to the platform's first offered format; it always takes
the first offered present mode and first offered alpha mode and sizes the
configuration to the window. -/
theorem init_config_selection (surface_capabilities : SurfaceCapabilities)
    (size : PhysicalSize) (f0 : TextureFormat) (fs : List TextureFormat)
    (p0 : PresentMode) (ps : List PresentMode)
    (a0 : AlphaMode) (al : List AlphaMode)
    (hf : surface_capabilities.formats = f0 :: fs)
    (hp : surface_capabilities.present_modes = p0 :: ps)
    (ha : surface_capabilities.alpha_modes = a0 :: al) :
    ∃ config : SurfaceConfiguration,
      AppRender.init_config surface_capabilities size = some config ∧
      config.width = size.width ∧
      config.height = size.height ∧
      config.present_mode = p0 ∧
      config.alpha_mode = a0 ∧
      config.usage = TextureUsage.RenderAttachment ∧
      config.view_formats = [] ∧
      ((∀ f ∈ surface_capabilities.formats, f.is_srgb = false) →
        config.format = f0) ∧
      ((∃ f ∈ surface_capabilities.formats, f.is_srgb = true) →
        config.format.is_srgb = true ∧
        ∃ pre post, surface_capabilities.formats =
            pre ++ config.format :: post ∧
          ∀ b ∈ pre, b.is_srgb = false) := by
  obtain ⟨formats, present_modes, alpha_modes⟩ := surface_capabilities
  simp only at hf hp ha
  subst hf hp ha
  refine ⟨_, rfl, rfl, rfl, rfl, rfl, rfl, rfl, ?_, ?_⟩
  · intro hnone
    have : ((f0 :: fs).find? TextureFormat.is_srgb) = none := by
      rw [List.find?_eq_none]
      intro f hfmem
      simp [hnone f hfmem]
    simp [this]
  · intro hsome
    obtain ⟨f, hfmem, hsrgb⟩ := hsome
    rcases hfind : (f0 :: fs).find? TextureFormat.is_srgb with _ | g
    · rw [List.find?_eq_none] at hfind
      exact absurd hsrgb (by simpa using hfind f hfmem)
    · obtain ⟨pre, post, hl, hpg, hpre⟩ :=
        find?_first_characterization TextureFormat.is_srgb (f0 :: fs) g hfind
      refine ⟨by simp [hfind, hpg], pre, post, by simp [hfind, hl], ?_⟩
      intro b hb
      exact hpre b hb

/-- Witness for `init_config_selection`: capabilities offering a non-sRGB
format before an sRGB one, a single present mode and a single alpha mode. -/
theorem init_config_selection_witness :
    ({ formats := [TextureFormat.Bgra8Unorm, TextureFormat.Bgra8UnormSrgb],
       present_modes := [PresentMode.Fifo],
       alpha_modes := [AlphaMode.Opaque] } : SurfaceCapabilities).formats =
      TextureFormat.Bgra8Unorm :: [TextureFormat.Bgra8UnormSrgb] ∧
    (∃ config : SurfaceConfiguration,
      AppRender.init_config
          { formats := [TextureFormat.Bgra8Unorm,
                        TextureFormat.Bgra8UnormSrgb],
            present_modes := [PresentMode.Fifo],
            alpha_modes := [AlphaMode.Opaque] }
          { width := 600, height := 300 } = some config ∧
      config.width = ({ width := 600, height := 300 } : PhysicalSize).width ∧
      config.height = ({ width := 600, height := 300 } : PhysicalSize).height ∧
      config.present_mode = PresentMode.Fifo ∧
      config.alpha_mode = AlphaMode.Opaque ∧
      config.usage = TextureUsage.RenderAttachment ∧
      config.view_formats = [] ∧
      ((∀ f ∈ ({ formats := [TextureFormat.Bgra8Unorm,
                             TextureFormat.Bgra8UnormSrgb],
                 present_modes := [PresentMode.Fifo],
                 alpha_modes := [AlphaMode.Opaque] } :
          SurfaceCapabilities).formats, f.is_srgb = false) →
        config.format = TextureFormat.Bgra8Unorm) ∧
      ((∃ f ∈ ({ formats := [TextureFormat.Bgra8Unorm,
                             TextureFormat.Bgra8UnormSrgb],
                 present_modes := [PresentMode.Fifo],
                 alpha_modes := [AlphaMode.Opaque] } :
          SurfaceCapabilities).formats, f.is_srgb = true) →
        config.format.is_srgb = true ∧
        ∃ pre post, ({ formats := [TextureFormat.Bgra8Unorm,
                                   TextureFormat.Bgra8UnormSrgb],
                       present_modes := [PresentMode.Fifo],
                       alpha_modes := [AlphaMode.Opaque] } :
            SurfaceCapabilities).formats = pre ++ config.format :: post ∧
          ∀ b ∈ pre, b.is_srgb = false)) :=
  ⟨rfl,
    init_config_selection
      { formats := [TextureFormat.Bgra8Unorm, TextureFormat.Bgra8UnormSrgb],
        present_modes := [PresentMode.Fifo],
        alpha_modes := [AlphaMode.Opaque] }
      { width := 600, height := 300 }
      TextureFormat.Bgra8Unorm [TextureFormat.Bgra8UnormSrgb]
      PresentMode.Fifo [] AlphaMode.Opaque [] rfl rfl rfl⟩
